import Mathlib

/-!
Verification of the mosaic-autoresponder reply-processing and follow-up
scheduling engine.  The definitions below are a shallow embedding of the
Python source: `app/core/debouncer.py`, `app/core/decision_router.py`,
`app/core/scheduler.py`, `app/ml/email_analyzer.py`, `app/smtp/sender.py`,
`app/db/prisma_client.py`, `app/db/connect.py` and `app/main.py`.
Timestamps are epoch seconds (Nat).  Redis and PostgreSQL are modelled as
explicit state records; each awaited query is one step, and a query that can
raise is modelled with an explicit fault parameter where a claim depends on
partial failure.
-/

namespace Mosaic

/-- Thread status enum (`prisma.enums.ThreadStatus`). -/
inductive Status where
  | PROCESSING
  | FOLLOWUP_ACTIVE
  | DELEGATED
  | COMPLETED
  | ERROR
deriving DecidableEq, Repr

/-- Stop reasons written by the router, sender and scheduler.  The source
stores them as strings; every value written is one of these non-empty
constants, so Python truthiness of `stop_reason` coincides with `isSome`. -/
inductive StopReason where
  | NOT_INTERESTED
  | CONTINUE_OVER_EMAIL
  | CONTACT_PROVIDED
  | CREATOR_REPLIED
  | CLARIFICATION_NEEDED
  | UNKNOWN_INTENT
  | MAX_SEND_FAILURES
deriving DecidableEq, Repr

/-- One EmailThread row.  Analysis columns that no claim touches
(initialReplyIntent, initialReplyHasContact, createdAt, updatedAt) are
omitted. -/
structure Thread where
  messageId : String
  threadId : String
  accountEmail : String
  creatorEmail : String
  subject : String
  status : Status := Status.PROCESSING
  currentStage : Nat := 0
  followupsSent : Nat := 0
  failedSends : Nat := 0
  stopReason : Option StopReason := none
  nextFollowupAt : Option Nat := none
  lastFollowupSentAt : Option Nat := none
  delegatedToHuman : Bool := false
deriving DecidableEq, Repr

/-- One FollowupSend row (Prisma model, `insert_followup_send`). -/
structure FollowupSendRow where
  emailThreadMsg : String
  stage : Nat
  sentAt : Nat
  templateUsed : String
  sendSuccess : Bool
deriving DecidableEq, Repr

/-- One StageTransition row (Prisma model, `insert_stage_transition`). -/
structure StageTransitionRow where
  emailThreadMsg : String
  fromStage : Nat
  toStage : Nat
  fromStatus : Status
  toStatus : Status
  reason : String
deriving DecidableEq, Repr

/-- One followup_history row (asyncpg layer, `insert_followup_history`). -/
structure FollowupHistoryRow where
  emailThreadMsg : String
  stage : Nat
  sentAt : Nat
  templateUsed : String
deriving DecidableEq, Repr

/-- The durable store.  Threads are keyed by messageId (unique index);
child rows reference the parent by that key. -/
structure DbState where
  threads : List Thread := []
  followup_sends : List FollowupSendRow := []
  stage_transitions : List StageTransitionRow := []
  followup_history : List FollowupHistoryRow := []
deriving DecidableEq, Repr

/-- The TTL store: plain keys (debounce and dedup markers; expiry is not
modelled because no settled claim depends on a key timing out) and the
`followups:scheduled` sorted set as member-score pairs. -/
structure RedisState where
  keys : List String := []
  zset : List (String × Nat) := []
deriving DecidableEq, Repr

/-- Mailbox read flags: messageId paired with the Seen flag
(`mark_as_read` sets true, `mark_as_unread` sets false). -/
structure MailState where
  seen : List (String × Bool) := []
deriving DecidableEq, Repr

/-- The whole system state threaded through the pipeline. -/
structure SysState where
  db : DbState := {}
  redis : RedisState := {}
  mail : MailState := {}
deriving DecidableEq, Repr

/-! ## String helpers

In this Lean version a String wraps its List Char, so the Python string
methods used by the source are embedded as list operations: `py_strip`
models `str.strip()` (drop leading and trailing whitespace), `py_lower`
models `str.lower()` and `py_upper` models `str.upper()` (ASCII case
mapping, which covers every string the source compares). -/

/-- Python str.strip(). -/
def py_strip (s : String) : String :=
  String.mk (((s.data.dropWhile Char.isWhitespace).reverse.dropWhile Char.isWhitespace).reverse)

/-- Python str.lower(). -/
def py_lower (s : String) : String := String.mk (s.data.map Char.toLower)

/-- Python str.upper(). -/
def py_upper (s : String) : String := String.mk (s.data.map Char.toUpper)

/-! ## Debouncer (`app/core/debouncer.py`) -/

/-- EmailDebouncer.TRIVIAL_PATTERNS. -/
def TRIVIAL_PATTERNS : List String :=
  ["hi", "hello", "hey", "thanks", "thank you", "ok", "okay",
   "yes", "no", "yep", "nope", "?", "thx", "ty"]

/-- EmailDebouncer.MIN_CONTENT_LENGTH. -/
def MIN_CONTENT_LENGTH : Nat := 10

/-- EmailDebouncer.is_trivial: empty body, body whose stripped lowercased
form is under 10 characters, or a noise token. -/
def is_trivial (email_body : String) : Bool :=
  if email_body.isEmpty then true
  else
    let cleaned := py_lower (py_strip email_body)
    if cleaned.length < MIN_CONTENT_LENGTH then true
    else if TRIVIAL_PATTERNS.contains cleaned then true
    else false

/-- EmailDebouncer.should_process: trivial check first, then the
`debounce:<threadId>` SET NX gate.  Returns the decision and the store with
the key installed when the gate was won. -/
def should_process (redis : RedisState) (thread_id : String) (email_body : String) :
    Bool × RedisState :=
  if is_trivial email_body then (false, redis)
  else
    let debounce_key := "debounce:" ++ thread_id
    if redis.keys.contains debounce_key then (false, redis)
    else (true, { redis with keys := debounce_key :: redis.keys })

/-! ## Analyzer (`app/ml/email_analyzer.py`) -/

def INTENT_INTERESTED : String := "INTERESTED"
def INTENT_NOT_INTERESTED : String := "NOT_INTERESTED"
def INTENT_CLARIFICATION : String := "CLARIFICATION"
def INTENT_CONTACT_PROVIDED : String := "CONTACT_PROVIDED"
def INTENT_CONTINUE_OVER_EMAIL : String := "CONTINUE_OVER_EMAIL"

def MAX_RETRIES : Nat := 2

/-- Result record of `analyze_email` (intent, validated phones, flags). -/
structure Analysis where
  intent : String
  phone_numbers : List String := []
  has_phone : Bool := false
  has_address : Bool := false
  address_text : Option String := none
deriving DecidableEq, Repr

/-- EmailAnalyzer._default_result. -/
def default_result (intent : String) : Analysis := { intent := intent }

/-- The JSON object extracted from the LLM response text, when
`json.loads` succeeded.  Fields default exactly like `data.get(...)`. -/
structure LlmJson where
  intent : Option String := none
  phone_numbers : List String := []
  has_address : Bool := false
  address_text : Option String := none
deriving DecidableEq, Repr

/-- Outcome of one `_analyze_with_llm` attempt as the surrounding loop sees
it: a response whose JSON extraction yielded `parsed` (`none` for an
unparseable response), a timeout, or any other exception. -/
inductive LlmAttempt where
  | ok (parsed : Option LlmJson)
  | timeout
  | error
deriving DecidableEq, Repr

/-- The valid_intents set of `_parse_response`. -/
def VALID_INTENTS : List String :=
  [INTENT_INTERESTED, INTENT_NOT_INTERESTED, INTENT_CLARIFICATION,
   INTENT_CONTACT_PROVIDED, INTENT_CONTINUE_OVER_EMAIL]

/-- EmailAnalyzer._parse_response on the extracted JSON: an out-of-enum or
missing intent collapses to CLARIFICATION, as does a parse failure. -/
def parse_response (parsed : Option LlmJson) : Analysis :=
  match parsed with
  | none => default_result INTENT_CLARIFICATION
  | some data =>
    let intent0 := py_upper (data.intent.getD "")
    let intent := if VALID_INTENTS.contains intent0 then intent0 else INTENT_CLARIFICATION
    { intent := intent
      phone_numbers := data.phone_numbers
      has_address := data.has_address
      address_text := data.address_text }

/-- EmailAnalyzer._analyze_with_llm: parse, then validate phone numbers
through the phonenumbers library (modelled by the `validate` oracle) and set
has_phone. -/
def analyze_with_llm (validate : List String → List String) (parsed : Option LlmJson) :
    Analysis :=
  let r := parse_response parsed
  let nums := validate r.phone_numbers
  { r with phone_numbers := nums, has_phone := !nums.isEmpty }

/-- The retry loop of `analyze_email`: `att n` is the outcome of attempt `n`
(n counts from 0).  Fuel starts at MAX_RETRIES + 1, matching
`range(MAX_RETRIES + 1)`; running out of fuel is the fall-through return. -/
def analyze_loop (validate : List String → List String) (att : Nat → LlmAttempt) :
    Nat → Nat → Analysis
  | _, 0 => default_result INTENT_CLARIFICATION
  | attempt, fuel + 1 =>
    match att attempt with
    | LlmAttempt.ok parsed => analyze_with_llm validate parsed
    | LlmAttempt.error => default_result INTENT_CLARIFICATION
    | LlmAttempt.timeout =>
      if attempt = MAX_RETRIES then default_result INTENT_CLARIFICATION
      else analyze_loop validate att (attempt + 1) fuel

/-- EmailAnalyzer.analyze_email: empty or whitespace body short-circuits to
the CLARIFICATION default, otherwise the retry loop runs. -/
def analyze_email (validate : List String → List String) (att : Nat → LlmAttempt)
    (email_body : String) : Analysis :=
  if email_body.isEmpty || (py_strip email_body).isEmpty then
    default_result INTENT_CLARIFICATION
  else analyze_loop validate att 0 (MAX_RETRIES + 1)

/-! ## DecisionRouter (`app/core/decision_router.py`) -/

/-- Actions the decision router can take. -/
inductive Action where
  | SEND_STAGE_1_FOLLOWUP
  | DELEGATE_TO_HUMAN
  | MARK_COMPLETE
  | SKIP
deriving DecidableEq, Repr

/-- The update_fields dict of a decision: a field is `some v` exactly when
the dict carries that key (string values already converted to the enums, as
the db layer does on update). -/
structure UpdateFields where
  status : Option Status := none
  stop_reason : Option StopReason := none
  current_stage : Option Nat := none
  delegated_to_human : Option Bool := none
deriving DecidableEq, Repr

/-- A routing decision: action, reason string, update_fields. -/
structure Decision where
  action : Action
  reason : String
  update_fields : UpdateFields
deriving DecidableEq, Repr

/-- DecisionRouter._handle_reply_to_followup. -/
def handle_reply_to_followup (thread : Thread) (intent : String) : Decision :=
  if intent = INTENT_CONTINUE_OVER_EMAIL then
    { action := Action.MARK_COMPLETE
      reason := "continue_over_email_after_followup"
      update_fields :=
        { status := some Status.COMPLETED
          stop_reason := some StopReason.CONTINUE_OVER_EMAIL } }
  else
    { action := Action.DELEGATE_TO_HUMAN
      reason := "creator_replied_to_followup"
      update_fields :=
        { status := some Status.DELEGATED
          stop_reason := some StopReason.CREATOR_REPLIED
          delegated_to_human := some true } }

/-- DecisionRouter._handle_new_reply. -/
def handle_new_reply (intent : String) (has_contact : Bool) : Decision :=
  if intent = INTENT_NOT_INTERESTED then
    { action := Action.MARK_COMPLETE
      reason := "not_interested"
      update_fields :=
        { status := some Status.COMPLETED
          stop_reason := some StopReason.NOT_INTERESTED } }
  else if intent = INTENT_CONTINUE_OVER_EMAIL then
    { action := Action.MARK_COMPLETE
      reason := "continue_over_email"
      update_fields :=
        { status := some Status.COMPLETED
          stop_reason := some StopReason.CONTINUE_OVER_EMAIL } }
  else if intent = INTENT_CONTACT_PROVIDED ∨ has_contact then
    { action := Action.DELEGATE_TO_HUMAN
      reason := "contact_provided"
      update_fields :=
        { status := some Status.DELEGATED
          stop_reason := some StopReason.CONTACT_PROVIDED
          delegated_to_human := some true } }
  else if intent = INTENT_INTERESTED then
    if has_contact then
      { action := Action.DELEGATE_TO_HUMAN
        reason := "interested_with_contact"
        update_fields :=
          { status := some Status.DELEGATED
            stop_reason := some StopReason.CONTACT_PROVIDED
            delegated_to_human := some true } }
    else
      { action := Action.SEND_STAGE_1_FOLLOWUP
        reason := "interested_no_contact"
        update_fields :=
          { status := some Status.FOLLOWUP_ACTIVE
            current_stage := some 1 } }
  else if intent = INTENT_CLARIFICATION then
    { action := Action.DELEGATE_TO_HUMAN
      reason := "clarification_needed"
      update_fields :=
        { status := some Status.DELEGATED
          stop_reason := some StopReason.CLARIFICATION_NEEDED
          delegated_to_human := some true } }
  else
    { action := Action.DELEGATE_TO_HUMAN
      reason := "unknown_intent"
      update_fields :=
        { status := some Status.DELEGATED
          stop_reason := some StopReason.UNKNOWN_INTENT
          delegated_to_human := some true } }

/-! ## ThreadStore (`app/db/prisma_client.py` and `app/db/connect.py`)

Both database singletons address the same per-thread rows; the embedding
merges them into one `DbState` keyed by messageId. -/

/-- Database get_thread / find_unique on the messageId unique index. -/
def get_thread (db : DbState) (message_id : String) : Option Thread :=
  db.threads.find? (fun t => t.messageId == message_id)

/-- Apply an update function to the row with the given key. -/
def set_thread (db : DbState) (message_id : String) (f : Thread → Thread) : DbState :=
  { db with threads := db.threads.map (fun t => if t.messageId == message_id then f t else t) }

/-- Database insert_thread: create with defaults, unique-conflict on
messageId returns none and leaves the store unchanged.  The status comes
from the caller (main.py passes `update_fields.get("status", "PROCESSING")`). -/
def insert_thread (db : DbState) (message_id thread_id account_email creator_email subject : String)
    (status : Status) : Option Nat × DbState :=
  if (get_thread db message_id).isSome then (none, db)
  else
    let t : Thread :=
      { messageId := message_id, threadId := thread_id, accountEmail := account_email,
        creatorEmail := creator_email, subject := subject, status := status }
    (some db.threads.length, { db with threads := db.threads ++ [t] })

/-- True when an update_fields dict is empty (`if not kwargs: return False`). -/
def no_fields (u : UpdateFields) : Bool :=
  u.status.isNone && u.stop_reason.isNone && u.current_stage.isNone && u.delegated_to_human.isNone

/-- Apply an update_fields dict to one row: each present key overwrites the
column. -/
def apply_update (t : Thread) (u : UpdateFields) : Thread :=
  { t with
    status := u.status.getD t.status
    stopReason := match u.stop_reason with | some r => some r | none => t.stopReason
    currentStage := u.current_stage.getD t.currentStage
    delegatedToHuman := u.delegated_to_human.getD t.delegatedToHuman }

/-- Database update_thread: False when no fields were given or the row does
not exist, otherwise the row is overwritten field-wise. -/
def update_thread (db : DbState) (message_id : String) (u : UpdateFields) : Bool × DbState :=
  if no_fields u then (false, db)
  else if (get_thread db message_id).isSome then
    (true, set_thread db message_id (fun t => apply_update t u))
  else (false, db)

/-- Database increment_failed_sends: returns the new count, or none when the
row does not exist. -/
def increment_failed_sends (db : DbState) (message_id : String) : Option Nat × DbState :=
  match get_thread db message_id with
  | none => (none, db)
  | some t =>
    (some (t.failedSends + 1),
     set_thread db message_id (fun t => { t with failedSends := t.failedSends + 1 }))

/-- PrismaDatabase.record_followup_sent.  The body runs four separate Prisma
queries with NO surrounding transaction, so each one commits on its own: op 0
is the find_unique, op 1 the thread update, op 2 the FollowupSend insert, op
3 the StageTransition insert.  `fault = some k` models a database error
raised by op k: the `except` returns False and every effect of the ops
before k stays committed. -/
def record_followup_sent (fault : Option Nat) (db : DbState) (message_id : String)
    (stage sent_at : Nat) (template_used : String) : Bool × DbState :=
  if fault = some 0 then (false, db)
  else
    match get_thread db message_id with
    | none => (false, db)
    | some thread =>
      let old_stage := thread.currentStage
      let old_status := thread.status
      if fault = some 1 then (false, db)
      else
        let db1 := set_thread db message_id (fun t =>
          { t with followupsSent := t.followupsSent + 1,
                   lastFollowupSentAt := some sent_at,
                   currentStage := stage })
        if fault = some 2 then (false, db1)
        else
          let db2 := { db1 with followup_sends := db1.followup_sends ++
            [{ emailThreadMsg := message_id, stage := stage, sentAt := sent_at,
               templateUsed := template_used, sendSuccess := true }] }
          if old_stage ≠ stage then
            if fault = some 3 then (false, db2)
            else
              (true, { db2 with stage_transitions := db2.stage_transitions ++
                [{ emailThreadMsg := message_id, fromStage := old_stage, toStage := stage,
                   fromStatus := old_status, toStatus := old_status,
                   reason := "followup_stage_" ++ toString stage ++ "_sent" }] })
          else (true, db2)

/-- Database.record_followup_sent (asyncpg layer, `app/db/connect.py`): the
variant the SMTP sender actually imports.  It runs inside
`conn.transaction()` so it is modelled as one atomic step: it increments
followups_sent, sets last_followup_sent_at and appends a followup_history
row; it does not touch current_stage and records no transition. -/
def record_followup_sent_asyncpg (db : DbState) (message_id : String)
    (stage sent_at : Nat) (template_used : String) : Bool × DbState :=
  match get_thread db message_id with
  | none => (false, db)
  | some _ =>
    let db1 := set_thread db message_id (fun t =>
      { t with followupsSent := t.followupsSent + 1, lastFollowupSentAt := some sent_at })
    (true, { db1 with followup_history := db1.followup_history ++
      [{ emailThreadMsg := message_id, stage := stage, sentAt := sent_at,
         templateUsed := template_used }] })

/-- PrismaDatabase.schedule_next_followup: sets nextFollowupAt and
currentStage.  Defined in the source but never called by any other function
of the repository. -/
def schedule_next_followup (db : DbState) (message_id : String)
    (next_followup_at : Nat) (next_stage : Nat) : Bool × DbState :=
  if (get_thread db message_id).isSome then
    (true, set_thread db message_id (fun t =>
      { t with nextFollowupAt := some next_followup_at, currentStage := next_stage }))
  else (false, db)

/-- PrismaDatabase.clear_next_followup: clears nextFollowupAt.  Defined in
the source but never called by any other function of the repository. -/
def clear_next_followup (db : DbState) (message_id : String) : Bool × DbState :=
  if (get_thread db message_id).isSome then
    (true, set_thread db message_id (fun t => { t with nextFollowupAt := none }))
  else (false, db)

/-! ## SMTP sender (`app/smtp/sender.py`) -/

def STAGE_1_TEMPLATE : String :=
  "Could you share your WhatsApp contact and address with me? I will ask my team to connect with you immediately."

def STAGE_2_TEMPLATE : String :=
  "Just checking in — can you please share your WhatsApp contact so we can connect quickly?"

def STAGE_3_TEMPLATE : String :=
  "Wanted to follow up again — we\x27d love to take this forward but just need your WhatsApp number to coordinate better."

def max_retries : Nat := 2

def max_failed_sends : Nat := 3

/-- SMTPSender.get_template; none models the ValueError on a bad stage. -/
def get_template (stage : Nat) : Option String :=
  if stage = 1 then some STAGE_1_TEMPLATE
  else if stage = 2 then some STAGE_2_TEMPLATE
  else if stage = 3 then some STAGE_3_TEMPLATE
  else none

/-- Outcome of one SMTP connect-login-send attempt. -/
inductive SmtpAttempt where
  | ok
  | authError
  | transientError
deriving DecidableEq, Repr

/-- The retry loop of `_send_with_retry`: `att n` is the outcome of attempt
`n`.  Returns (success, attempts made).  An authentication error returns
immediately; a transient error retries until `attempt == max_retries`. -/
def send_with_retry_go (att : Nat → SmtpAttempt) : Nat → Nat → Bool × Nat
  | attempt, 0 => (false, attempt)
  | attempt, fuel + 1 =>
    match att attempt with
    | SmtpAttempt.ok => (true, attempt + 1)
    | SmtpAttempt.authError => (false, attempt + 1)
    | SmtpAttempt.transientError =>
      if attempt = max_retries then (false, attempt + 1)
      else send_with_retry_go att (attempt + 1) fuel

/-- SMTPSender._send_with_retry: up to max_retries + 1 attempts. -/
def send_with_retry (att : Nat → SmtpAttempt) : Bool × Nat :=
  send_with_retry_go att 0 (max_retries + 1)

/-- SMTPSender.send_followup.  `pw_ok` models settings holding an app
password for the account; `att` the SMTP attempt outcomes; `sent_at` is
datetime.now() at the success branch.  Mirrors the source flow: pre-check of
failed_sends, password lookup, template, retry send, then
record_followup_sent (asyncpg) on success or increment_failed_sends plus the
max-failure marking on failure. -/
def send_followup (pw_ok : Bool) (att : Nat → SmtpAttempt) (db : DbState)
    (thread_data : Thread) (stage : Nat) (sent_at : Nat) : Bool × DbState :=
  let message_id := thread_data.messageId
  if thread_data.failedSends ≥ max_failed_sends then
    (false, (update_thread db message_id
      { status := some Status.ERROR, stop_reason := some StopReason.MAX_SEND_FAILURES }).2)
  else if !pw_ok then
    (false, (increment_failed_sends db message_id).2)
  else
    match get_template stage with
    | none => (false, db)
    | some template =>
      let success := (send_with_retry att).1
      if success then
        (true, (record_followup_sent_asyncpg db message_id stage sent_at template).2)
      else
        let inc := increment_failed_sends db message_id
        match inc.1 with
        | some new_count =>
          if new_count ≥ max_failed_sends then
            (false, (update_thread inc.2 message_id
              { status := some Status.ERROR,
                stop_reason := some StopReason.MAX_SEND_FAILURES }).2)
          else (false, inc.2)
        | none => (false, inc.2)

/-! ## Scheduler (`app/core/scheduler.py`) -/

def STAGE_2_DELAY_HOURS : Nat := 24

def STAGE_3_DELAY_HOURS : Nat := 48

/-- Member string stored in the followups:scheduled sorted set. -/
def member_key (message_id : String) (stage : Nat) : String :=
  message_id ++ ":" ++ toString stage

/-- Deduplication key `followup:<messageId>:<stage>`. -/
def dedup_key (message_id : String) (stage : Nat) : String :=
  "followup:" ++ message_id ++ ":" ++ toString stage

/-- ZADD on the sorted set: insert or update the member score. -/
def zadd (redis : RedisState) (member : String) (score : Nat) : RedisState :=
  { redis with zset := (member, score) :: redis.zset.filter (fun p => p.1 ≠ member) }

/-- FollowUpScheduler.schedule_followup: zadd of `<messageId>:<stage>` with
score now + delay_hours (epoch seconds).  Stages outside 1..3 raise. -/
def schedule_followup (now : Nat) (redis : RedisState) (message_id : String)
    (stage delay_hours : Nat) : Bool × RedisState :=
  if stage = 1 ∨ stage = 2 ∨ stage = 3 then
    (true, zadd redis (member_key message_id stage) (now + delay_hours * 3600))
  else (false, redis)

/-- The loop body of FollowUpScheduler.cancel_followup over the stages
list.  `op_idx` numbers the Redis commands in execution order (zrem then
delete per stage); `fault = some k` models a Redis error raised by command
k, which the `except` turns into a 0 return, keeping the effects of the
commands already run. -/
def cancel_go (fault : Option Nat) (message_id : String) :
    List Nat → Nat → Nat → RedisState → Nat × RedisState
  | [], _, count, redis => (count, redis)
  | stage :: rest, op_idx, count, redis =>
    if fault = some op_idx then (0, redis)
    else
      let member := member_key message_id stage
      let removed := (redis.zset.filter (fun p => p.1 = member)).length
      let redis1 := { redis with zset := redis.zset.filter (fun p => p.1 ≠ member) }
      let count1 := count + removed
      if fault = some (op_idx + 1) then (0, redis1)
      else
        let redis2 := { redis1 with keys := redis1.keys.filter (fun k => k ≠ dedup_key message_id stage) }
        cancel_go fault message_id rest (op_idx + 2) count1 redis2

/-- FollowUpScheduler.cancel_followup: remove the members for stages 1, 2, 3
from the sorted set, delete the three dedup keys, return the number of
members removed; any Redis error yields 0. -/
def cancel_followup (fault : Option Nat) (redis : RedisState) (message_id : String) :
    Nat × RedisState :=
  cancel_go fault message_id [1, 2, 3] 0 0 redis

/-- FollowUpScheduler._should_send_followup: the eligibility guard, in
source order: dedup key, thread exists, status, stop_reason, failed_sends,
followups_sent. -/
def should_send_followup (redis : RedisState) (db : DbState) (message_id : String)
    (stage : Nat) : Bool × Option Thread :=
  if redis.keys.contains (dedup_key message_id stage) then (false, none)
  else
    match get_thread db message_id with
    | none => (false, none)
    | some thread =>
      if thread.status ≠ Status.FOLLOWUP_ACTIVE then (false, none)
      else if thread.stopReason.isSome then (false, none)
      else if thread.failedSends ≥ 3 then (false, none)
      else if thread.followupsSent ≥ stage then (false, none)
      else (true, some thread)

/-- FollowUpScheduler._process_followup: guard, dedup-key install, send,
then on success the current_stage update and the next-stage zadd (stage 1
adds stage 2 at now + 24 h, stage 2 adds stage 3 at now + 48 h, stage 3
adds nothing). -/
def process_followup (pw_ok : Bool) (att : Nat → SmtpAttempt) (now : Nat)
    (redis : RedisState) (db : DbState) (message_id : String) (stage : Nat) :
    Bool × RedisState × DbState :=
  let guard := should_send_followup redis db message_id stage
  match guard.2, guard.1 with
  | some thread_data, true =>
    let redis1 := { redis with keys := dedup_key message_id stage :: redis.keys }
    let send := send_followup pw_ok att db thread_data stage now
    if send.1 then
      let db2 := (update_thread send.2 message_id { current_stage := some stage }).2
      if stage = 1 then
        (true, (schedule_followup now redis1 message_id 2 STAGE_2_DELAY_HOURS).2, db2)
      else if stage = 2 then
        (true, (schedule_followup now redis1 message_id 3 48).2, db2)
      else (true, redis1, db2)
    else (false, redis1, send.2)
  | _, _ => (false, redis, db)

/-! ## Pipeline (`app/main.py`, Application.process_email) -/

/-- The parsed email dict handed to process_email by the IMAP watcher. -/
structure EmailData where
  message_id : String
  thread_id : String
  account_email : String
  from_email : String
  subject : String
  body : String
deriving DecidableEq, Repr

/-- IMAPController.mark_as_read: set the Seen flag. -/
def mark_as_read (m : MailState) (message_id : String) : MailState :=
  { seen := (message_id, true) :: m.seen.filter (fun p => p.1 ≠ message_id) }

/-- IMAPController.mark_as_unread: clear the Seen flag. -/
def mark_as_unread (m : MailState) (message_id : String) : MailState :=
  { seen := (message_id, false) :: m.seen.filter (fun p => p.1 ≠ message_id) }

/-- DecisionRouter.determine_action (the `route_email` entry point): one
analyzer call, then the existing-thread branch on `db.get_thread`.
`analyzer` stands for the result of `analyze_email` on the body. -/
def determine_action (analyzer : String → Analysis) (db : DbState)
    (message_id email_body : String) : Decision × Analysis :=
  let analysis := analyzer email_body
  let has_contact := analysis.has_phone || analysis.has_address
  match get_thread db message_id with
  | some existing_thread => (handle_reply_to_followup existing_thread analysis.intent, analysis)
  | none => (handle_new_reply analysis.intent has_contact, analysis)

/-- The body of Application.process_email after the early terminal-status
exit: route, insert on first sight, apply the update_fields, then execute
the action (stage-1 send plus stage-2 scheduling, or delegation or
completion with cancel_followup, or skip). -/
def process_email_core (analyzer : String → Analysis) (pw_ok : Bool)
    (att : Nat → SmtpAttempt) (now : Nat) (e : EmailData) (s : SysState) :
    Bool × SysState :=
  let routed := determine_action analyzer s.db e.message_id e.body
  let decision := routed.1
  let s1 :=
    match get_thread s.db e.message_id with
    | none =>
      { s with db := (insert_thread s.db e.message_id e.thread_id e.account_email
          e.from_email e.subject (decision.update_fields.status.getD Status.PROCESSING)).2 }
    | some _ => s
  let s2 := { s1 with db := (update_thread s1.db e.message_id decision.update_fields).2 }
  match decision.action with
  | Action.SEND_STAGE_1_FOLLOWUP =>
    let s3 := { s2 with mail := mark_as_read s2.mail e.message_id }
    (match get_thread s3.db e.message_id with
     | some thread_data =>
       let send := send_followup pw_ok att s3.db thread_data 1 now
       let s4 := { s3 with db := send.2 }
       if send.1 then
         (true, { s4 with redis := (schedule_followup now s4.redis e.message_id 2 24).2 })
       else (true, s4)
     | none => (true, s3))
  | Action.DELEGATE_TO_HUMAN =>
    let s3 := { s2 with mail := mark_as_unread s2.mail e.message_id }
    (true, { s3 with redis := (cancel_followup none s3.redis e.message_id).2 })
  | Action.MARK_COMPLETE =>
    let s3 := { s2 with mail := mark_as_read s2.mail e.message_id }
    (true, { s3 with redis := (cancel_followup none s3.redis e.message_id).2 })
  | Action.SKIP => (true, s2)

/-- Application.process_email.  Note that the source never consults the
Debouncer: `should_process` has no caller in the repository.  The only
early exits are missing fields and a thread already DELEGATED or
COMPLETED. -/
def process_email (analyzer : String → Analysis) (pw_ok : Bool)
    (att : Nat → SmtpAttempt) (now : Nat) (e : EmailData) (s : SysState) :
    Bool × SysState :=
  if e.message_id.isEmpty || e.body.isEmpty then (false, s)
  else
    match get_thread s.db e.message_id with
    | some t0 =>
      if t0.status = Status.DELEGATED ∨ t0.status = Status.COMPLETED then
        if t0.status = Status.DELEGATED then
          (true, { s with mail := mark_as_unread s.mail e.message_id })
        else (true, s)
      else process_email_core analyzer pw_ok att now e s
    | none => process_email_core analyzer pw_ok att now e s

/-! ## Spec-side definition for the router refinement claim -/

/-- Rule table of spec section 4.4 as the claim states it, written from the
claim words: result is (action, status written, stopReason written,
currentStage written); `none` means the decision writes nothing for that
column.  First match wins. -/
def decision_rule_table (intent : String) (has_contact : Bool) (existing : Option Thread) :
    Action × Option Status × Option StopReason × Option Nat :=
  match existing with
  | some _ =>
    if intent = "CONTINUE_OVER_EMAIL" then
      (Action.MARK_COMPLETE, some Status.COMPLETED, some StopReason.CONTINUE_OVER_EMAIL, none)
    else
      (Action.DELEGATE_TO_HUMAN, some Status.DELEGATED, some StopReason.CREATOR_REPLIED, none)
  | none =>
    if intent = "NOT_INTERESTED" then
      (Action.MARK_COMPLETE, some Status.COMPLETED, some StopReason.NOT_INTERESTED, none)
    else if intent = "CONTINUE_OVER_EMAIL" then
      (Action.MARK_COMPLETE, some Status.COMPLETED, some StopReason.CONTINUE_OVER_EMAIL, none)
    else if intent = "CONTACT_PROVIDED" ∨ has_contact then
      (Action.DELEGATE_TO_HUMAN, some Status.DELEGATED, some StopReason.CONTACT_PROVIDED, none)
    else if intent = "INTERESTED" then
      (Action.SEND_STAGE_1_FOLLOWUP, some Status.FOLLOWUP_ACTIVE, none, some 1)
    else if intent = "CLARIFICATION" then
      (Action.DELEGATE_TO_HUMAN, some Status.DELEGATED, some StopReason.CLARIFICATION_NEEDED, none)
    else
      (Action.DELEGATE_TO_HUMAN, some Status.DELEGATED, some StopReason.UNKNOWN_INTENT, none)

/-! ## Theorems -/

/-- C9: the trivial-content filter is a pure function of the body that
rejects exactly the bodies whose stripped, lowercased form is under 10
characters or is a noise token; in particular a 9-character cleaned body is
rejected and a 10-character cleaned body that is no noise token is
accepted. -/
theorem trivial_filter_characterization :
    ∀ body : String,
      (is_trivial body = true ↔
        ((py_lower (py_strip body)).length < 10 ∨
         TRIVIAL_PATTERNS.contains (py_lower (py_strip body)) = true)) ∧
      ((py_lower (py_strip body)).length = 9 → is_trivial body = true) ∧
      ((py_lower (py_strip body)).length = 10 →
        TRIVIAL_PATTERNS.contains (py_lower (py_strip body)) = false →
        is_trivial body = false) := by
  intro body
  by_cases he : body.isEmpty
  · have hb : body = "" := (String.isEmpty_iff body).mp he
    subst hb
    refine ⟨?_, ?_, ?_⟩ <;> decide
  · have hmain : is_trivial body =
        ((py_lower (py_strip body)).length < 10 ||
         TRIVIAL_PATTERNS.contains (py_lower (py_strip body))) := by
      unfold is_trivial MIN_CONTENT_LENGTH
      simp only [he, Bool.false_eq_true, if_false]
      by_cases hl : (py_lower (py_strip body)).length < 10 <;>
        by_cases hc : TRIVIAL_PATTERNS.contains (py_lower (py_strip body)) <;>
        simp [hl, hc]
    refine ⟨?_, ?_, ?_⟩
    · rw [hmain]
      simp
    · intro h9
      rw [hmain]
      simp [h9]
    · intro h10 hc
      rw [hmain, hc]
      simp
      omega

/-- C6: the router decision is a deterministic function of the analysis and
the existing-thread lookup, and agrees with the first-match rule table of
the spec on action, status, stopReason and currentStage for every input. -/
theorem router_follows_rule_table :
    ∀ (analyzer : String → Analysis) (db : DbState) (message_id email_body : String),
      (((determine_action analyzer db message_id email_body).1.action,
        (determine_action analyzer db message_id email_body).1.update_fields.status,
        (determine_action analyzer db message_id email_body).1.update_fields.stop_reason,
        (determine_action analyzer db message_id email_body).1.update_fields.current_stage)
        = decision_rule_table (analyzer email_body).intent
            ((analyzer email_body).has_phone || (analyzer email_body).has_address)
            (get_thread db message_id)) := by
  intro analyzer db message_id email_body
  unfold determine_action decision_rule_table
  dsimp only
  cases get_thread db message_id with
  | some t =>
    unfold handle_reply_to_followup INTENT_CONTINUE_OVER_EMAIL
    split_ifs <;> rfl
  | none =>
    unfold handle_new_reply INTENT_NOT_INTERESTED INTENT_CONTINUE_OVER_EMAIL
      INTENT_CONTACT_PROVIDED INTENT_INTERESTED INTENT_CLARIFICATION
    split_ifs <;> first | rfl | (exfalso; tauto)

/-- C7 counterexample: with the Analyzer call failing by an out-of-enum
response, the resulting intent is CLARIFICATION, not UNCLEAR as the claim
states. -/
theorem analyzer_failure_yields_clarification_cex :
    (analyze_email id (fun _ => LlmAttempt.ok (some { intent := some "GARBAGE" }))
      "some reply body").intent = "CLARIFICATION" ∧
    (analyze_email id (fun _ => LlmAttempt.ok (some { intent := some "GARBAGE" }))
      "some reply body").intent ≠ "UNCLEAR" := by
  decide

/-- C7 amended: every Analyzer failure path (timeout on all attempts, a call
error, an unparseable response, an out-of-enum intent) yields intent
CLARIFICATION, which the router turns into DELEGATE_TO_HUMAN (stopReason
CLARIFICATION_NEEDED on a new thread). -/
theorem analyzer_failure_defaults_clarification :
    ∀ (validate : List String → List String) (att : Nat → LlmAttempt)
      (email_body : String) (j : LlmJson),
      ((att 0 = LlmAttempt.timeout ∧ att 1 = LlmAttempt.timeout ∧ att 2 = LlmAttempt.timeout) →
        (analyze_email validate att email_body).intent = INTENT_CLARIFICATION) ∧
      (att 0 = LlmAttempt.error →
        (analyze_email validate att email_body).intent = INTENT_CLARIFICATION) ∧
      (att 0 = LlmAttempt.ok none →
        (analyze_email validate att email_body).intent = INTENT_CLARIFICATION) ∧
      ((VALID_INTENTS.contains (py_upper (j.intent.getD "")) = false ∧
        att 0 = LlmAttempt.ok (some j)) →
        (analyze_email validate att email_body).intent = INTENT_CLARIFICATION) ∧
      ((handle_new_reply INTENT_CLARIFICATION false).action = Action.DELEGATE_TO_HUMAN ∧
       (handle_new_reply INTENT_CLARIFICATION false).update_fields.stop_reason
         = some StopReason.CLARIFICATION_NEEDED) := by
  intro validate att email_body j
  by_cases hb : (email_body.isEmpty || (py_strip email_body).isEmpty)
  · refine ⟨?_, ?_, ?_, ?_, by decide⟩ <;>
      · intro _
        simp [analyze_email, hb, default_result]
  · refine ⟨?_, ?_, ?_, ?_, by decide⟩
    · rintro ⟨h0, h1, h2⟩
      simp [analyze_email, hb, analyze_loop, h0, h1, h2, MAX_RETRIES, default_result]
    · intro h0
      simp [analyze_email, hb, analyze_loop, h0, default_result]
    · intro h0
      simp [analyze_email, hb, analyze_loop, h0, analyze_with_llm, parse_response,
        default_result]
    · rintro ⟨hj, h0⟩
      have hj2 : py_upper (j.intent.getD "") ∉ VALID_INTENTS := by simpa using hj
      simp [analyze_email, hb, analyze_loop, h0, analyze_with_llm, parse_response, hj2,
        default_result]

/-- A string append is injective in its right argument. -/
lemma append_right_ne (s a b : String) (h : a ≠ b) : s ++ a ≠ s ++ b := by
  intro he
  apply h
  have hd : s.data ++ a.data = s.data ++ b.data := by
    have := congrArg String.data he
    rwa [String.data_append, String.data_append] at this
  have hab : a.data = b.data := List.append_cancel_left hd
  cases a
  cases b
  exact congrArg String.mk hab

lemma member_key_ne (mid : String) (i j : Nat) (h : toString i ≠ toString j) :
    member_key mid i ≠ member_key mid j :=
  append_right_ne (mid ++ ":") (toString i) (toString j) h

/-- Filtering away a different key does not change the count of a key. -/
lemma length_filter_filter_ne (l : List (String × Nat)) (a b : String) (h : b ≠ a) :
    ((l.filter (fun p => p.1 ≠ a)).filter (fun p => decide (p.1 = b))).length
      = (l.filter (fun p => decide (p.1 = b))).length := by
  have hcong : ∀ x ∈ l, (decide (x.1 = b) && decide (x.1 ≠ a)) = decide (x.1 = b) := by
    intro x _
    by_cases hb2 : x.1 = b
    · have hna : ¬ x.1 = a := fun ha => h (hb2 ▸ ha)
      simp [hb2, hna, h]
    · simp [hb2]
  rw [List.filter_filter, List.filter_congr hcong]

/-- C2: the dispatcher guard accepts exactly when the six eligibility
conditions hold (no dedup key, thread exists, FOLLOWUP_ACTIVE, no stop
reason, failedSends below 3, followupsSent below the stage), and a rejected
guard makes the dispatcher send nothing and change nothing. -/
theorem dispatcher_guard_characterization :
    ∀ (pw_ok : Bool) (att : Nat → SmtpAttempt) (now : Nat) (redis : RedisState)
      (db : DbState) (message_id : String) (stage : Nat),
      ((should_send_followup redis db message_id stage).1 = true ↔
        (redis.keys.contains (dedup_key message_id stage) = false ∧
         ∃ t, get_thread db message_id = some t ∧
           t.status = Status.FOLLOWUP_ACTIVE ∧ t.stopReason = none ∧
           t.failedSends < 3 ∧ t.followupsSent < stage)) ∧
      ((should_send_followup redis db message_id stage).1 = false →
        process_followup pw_ok att now redis db message_id stage = (false, redis, db)) := by
  intro pw_ok att now redis db message_id stage
  constructor
  · by_cases hk : dedup_key message_id stage ∈ redis.keys
    · have hkc : redis.keys.contains (dedup_key message_id stage) = true := by simpa using hk
      simp [should_send_followup, hkc, hk]
    · have hkc : redis.keys.contains (dedup_key message_id stage) = false := by simpa using hk
      cases hg : get_thread db message_id with
      | none => simp [should_send_followup, hkc, hg]
      | some t =>
        cases hs : t.stopReason with
        | none =>
          simp only [should_send_followup, hkc, Bool.false_eq_true, if_false, hg, hs,
            Option.isSome_none, Option.some.injEq]
          split_ifs <;> simp_all
        | some r =>
          simp only [should_send_followup, hkc, Bool.false_eq_true, if_false, hg, hs,
            Option.isSome_some, Option.some.injEq]
          split_ifs <;> simp_all
  · intro h
    unfold process_followup
    rcases hg : should_send_followup redis db message_id stage with ⟨b, topt⟩
    rw [hg] at h
    simp only at h
    subst h
    cases topt <;> rfl

/-- C10: cancel_followup removes the schedule members of all three stages,
deletes the three dedup keys, returns the number of members removed, and
returns 0 when any of its Redis commands errors. -/
theorem cancel_followup_spec :
    ∀ (redis : RedisState) (message_id : String),
      ((cancel_followup none redis message_id).1 =
        (redis.zset.filter (fun p => decide (p.1 = member_key message_id 1))).length +
        (redis.zset.filter (fun p => decide (p.1 = member_key message_id 2))).length +
        (redis.zset.filter (fun p => decide (p.1 = member_key message_id 3))).length) ∧
      (∀ p ∈ (cancel_followup none redis message_id).2.zset,
        p.1 ≠ member_key message_id 1 ∧ p.1 ≠ member_key message_id 2 ∧
        p.1 ≠ member_key message_id 3) ∧
      (∀ k ∈ (cancel_followup none redis message_id).2.keys,
        k ≠ dedup_key message_id 1 ∧ k ≠ dedup_key message_id 2 ∧
        k ≠ dedup_key message_id 3) ∧
      (∀ i, i < 6 → (cancel_followup (some i) redis message_id).1 = 0) := by
  intro redis message_id
  have h21 : member_key message_id 2 ≠ member_key message_id 1 :=
    member_key_ne message_id 2 1 (by decide)
  have h31 : member_key message_id 3 ≠ member_key message_id 1 :=
    member_key_ne message_id 3 1 (by decide)
  have h32 : member_key message_id 3 ≠ member_key message_id 2 :=
    member_key_ne message_id 3 2 (by decide)
  refine ⟨?_, ?_, ?_, ?_⟩
  · simp only [cancel_followup, cancel_go]
    simp only [Option.some.injEq, reduceCtorEq, if_false]
    rw [length_filter_filter_ne _ _ _ h21,
        length_filter_filter_ne _ _ _ h32,
        length_filter_filter_ne _ _ _ h31]
    omega
  · intro p hp
    simp only [cancel_followup, cancel_go, Option.some.injEq, reduceCtorEq, if_false] at hp
    simp only [List.mem_filter, decide_eq_true_eq] at hp
    tauto
  · intro k hk
    simp only [cancel_followup, cancel_go, Option.some.injEq, reduceCtorEq, if_false] at hk
    simp only [List.mem_filter, decide_eq_true_eq] at hk
    tauto
  · intro i hi
    interval_cases i <;> simp [cancel_followup, cancel_go]

/-- Updating the row under a key that the update function preserves is seen
by a lookup as a map over the previous lookup. -/
lemma find_map_keyed (l : List Thread) (mid : String) (f : Thread → Thread)
    (hf : ∀ t, (f t).messageId = t.messageId) :
    (l.map (fun t => if t.messageId == mid then f t else t)).find?
        (fun t => t.messageId == mid)
      = (l.find? (fun t => t.messageId == mid)).map f := by
  induction l with
  | nil => rfl
  | cons a rest ih =>
    by_cases ha : a.messageId = mid
    · simp [List.find?_cons, ha, hf a]
    · simp only [beq_iff_eq] at ih
      simp [List.find?_cons, ha, ih, -List.find?_map]

lemma get_thread_set (db : DbState) (mid : String) (f : Thread → Thread)
    (hf : ∀ t, (f t).messageId = t.messageId) :
    get_thread (set_thread db mid f) mid = (get_thread db mid).map f :=
  find_map_keyed db.threads mid f hf

lemma get_thread_key (db : DbState) (mid : String) (t : Thread)
    (h : get_thread db mid = some t) : t.messageId = mid := by
  have := List.find?_some h
  simpa using this

/-- C4 amended: on a send failure the sender increments failedSends; when
the new count reaches 3 it marks the thread ERROR with stopReason
MAX_SEND_FAILURES but leaves nextFollowupAt unchanged (it is not cleared);
the dispatcher guard then rejects the thread for every stage; an SMTP
authentication error short-circuits after one attempt and counts as a
failure. -/
theorem send_failure_marks_error :
    ∀ (att : Nat → SmtpAttempt) (db : DbState) (t : Thread) (stage sent_at : Nat),
      get_thread db t.messageId = some t →
      t.failedSends = 2 →
      (stage = 1 ∨ stage = 2 ∨ stage = 3) →
      (send_with_retry att).1 = false →
      ((send_followup true att db t stage sent_at).1 = false ∧
       (∃ t1, get_thread (send_followup true att db t stage sent_at).2 t.messageId = some t1 ∧
          t1.failedSends = 3 ∧ t1.status = Status.ERROR ∧
          t1.stopReason = some StopReason.MAX_SEND_FAILURES ∧
          t1.nextFollowupAt = t.nextFollowupAt) ∧
       (∀ (redis : RedisState) (stage2 : Nat),
          (should_send_followup redis (send_followup true att db t stage sent_at).2
            t.messageId stage2).1 = false) ∧
       (att 0 = SmtpAttempt.authError → send_with_retry att = (false, 1))) := by
  intro att db t stage sent_at hget hfs hstage hretry
  obtain ⟨tmpl, htmpl⟩ : ∃ tmpl, get_template stage = some tmpl := by
    rcases hstage with h | h | h <;> subst h <;> exact ⟨_, rfl⟩
  have hpre : ¬ t.failedSends ≥ max_failed_sends := by
    rw [hfs]; decide
  have hinc : ∀ u : Thread, ({ u with failedSends := u.failedSends + 1 } : Thread).messageId
      = u.messageId := fun _ => rfl
  have hget1 : get_thread
      (set_thread db t.messageId (fun u => { u with failedSends := u.failedSends + 1 }))
      t.messageId = some { t with failedSends := t.failedSends + 1 } := by
    rw [get_thread_set db t.messageId _ hinc, hget]
    rfl
  have hsend : send_followup true att db t stage sent_at
      = (false, (update_thread
          (set_thread db t.messageId (fun u => { u with failedSends := u.failedSends + 1 }))
          t.messageId
          { status := some Status.ERROR,
            stop_reason := some StopReason.MAX_SEND_FAILURES }).2) := by
    simp only [send_followup, increment_failed_sends, hget]
    simp [hpre, htmpl, hretry, hfs, max_failed_sends]
  have hupd : ∀ u : Thread,
      (apply_update u
        { status := some Status.ERROR, stop_reason := some StopReason.MAX_SEND_FAILURES }).messageId
        = u.messageId := fun _ => rfl
  have hget2 : get_thread (send_followup true att db t stage sent_at).2 t.messageId
      = some (apply_update { t with failedSends := t.failedSends + 1 }
          { status := some Status.ERROR,
            stop_reason := some StopReason.MAX_SEND_FAILURES }) := by
    rw [hsend]
    unfold update_thread
    rw [if_neg (by simp [no_fields]), if_pos (by rw [hget1]; exact rfl)]
    rw [get_thread_set _ t.messageId _ hupd, hget1]
    rfl
  refine ⟨by rw [hsend], ⟨_, hget2, by simp [apply_update, hfs], rfl, rfl, rfl⟩, ?_, ?_⟩
  · intro redis stage2
    unfold should_send_followup
    by_cases hk : dedup_key t.messageId stage2 ∈ redis.keys
    · simp [hk]
    · simp [hk, hget2, apply_update]
  · intro h0
    simp [send_with_retry, send_with_retry_go, h0, max_retries]

def wFailAtt : Nat → SmtpAttempt := fun _ => SmtpAttempt.transientError

def wFailThread : Thread :=
  { messageId := "m1", threadId := "t1", accountEmail := "a@x.com",
    creatorEmail := "c@y.com", subject := "s", status := Status.FOLLOWUP_ACTIVE,
    currentStage := 1, followupsSent := 1, failedSends := 2, nextFollowupAt := some 777 }

def wFailDb : DbState := { threads := [wFailThread] }

/-- C4 witness: the amended theorem applied at a concrete thread with two
prior failures and a pending next-followup timestamp. -/
theorem send_failure_marks_error_witness :
    ((send_followup true wFailAtt wFailDb wFailThread 2 5000).1 = false ∧
     (∃ t1, get_thread (send_followup true wFailAtt wFailDb wFailThread 2 5000).2
        wFailThread.messageId = some t1 ∧
        t1.failedSends = 3 ∧ t1.status = Status.ERROR ∧
        t1.stopReason = some StopReason.MAX_SEND_FAILURES ∧
        t1.nextFollowupAt = wFailThread.nextFollowupAt) ∧
     (∀ (redis : RedisState) (stage2 : Nat),
        (should_send_followup redis (send_followup true wFailAtt wFailDb wFailThread 2 5000).2
          wFailThread.messageId stage2).1 = false) ∧
     (wFailAtt 0 = SmtpAttempt.authError → send_with_retry wFailAtt = (false, 1))) :=
  send_failure_marks_error wFailAtt wFailDb wFailThread 2 5000 (by decide) (by decide)
    (by decide) (by decide)

/-- C4 counterexample: after the third failure the thread is ERROR with
stopReason MAX_SEND_FAILURES, but nextFollowupAt is still its old value,
not null as the claim states. -/
theorem send_failure_keeps_next_followup_cex :
    ((get_thread (send_followup true wFailAtt wFailDb wFailThread 2 5000).2 "m1").map
        (fun t => t.failedSends) = some 3) ∧
    ((get_thread (send_followup true wFailAtt wFailDb wFailThread 2 5000).2 "m1").map
        (fun t => t.status) = some Status.ERROR) ∧
    ((get_thread (send_followup true wFailAtt wFailDb wFailThread 2 5000).2 "m1").map
        (fun t => t.stopReason) = some (some StopReason.MAX_SEND_FAILURES)) ∧
    ((get_thread (send_followup true wFailAtt wFailDb wFailThread 2 5000).2 "m1").map
        (fun t => t.nextFollowupAt) = some (some 777)) ∧
    ((get_thread (send_followup true wFailAtt wFailDb wFailThread 2 5000).2 "m1").map
        (fun t => t.nextFollowupAt) ≠ some (none : Option Nat)) := by
  decide

/-- A guard that returns a thread returned the thread the store holds. -/
lemma should_send_some (redis : RedisState) (db : DbState) (message_id : String)
    (stage : Nat) (td : Thread)
    (h : (should_send_followup redis db message_id stage).2 = some td) :
    get_thread db message_id = some td := by
  unfold should_send_followup at h
  by_cases hk : redis.keys.contains (dedup_key message_id stage) = true
  · rw [if_pos hk] at h
    simp at h
  · rw [if_neg hk] at h
    cases hg : get_thread db message_id with
    | none => rw [hg] at h; simp at h
    | some u =>
      rw [hg] at h
      dsimp only at h
      split_ifs at h <;> simp_all

/-- Lookups ignore the followup_history log. -/
lemma get_thread_history (db : DbState) (rows : List FollowupHistoryRow) (mid : String) :
    get_thread { db with followup_history := rows } mid = get_thread db mid := rfl

/-- On a successful send the sender records through the asyncpg
record_followup_sent: followupsSent is incremented and lastFollowupSentAt
set; every other thread column (nextFollowupAt in particular) is
unchanged. -/
lemma send_followup_success_next (pw_ok : Bool) (att : Nat → SmtpAttempt) (db : DbState)
    (t : Thread) (stage sent_at : Nat)
    (hget : get_thread db t.messageId = some t)
    (hs : (send_followup pw_ok att db t stage sent_at).1 = true) :
    get_thread (send_followup pw_ok att db t stage sent_at).2 t.messageId
      = some { t with
               followupsSent := t.followupsSent + 1,
               lastFollowupSentAt := some sent_at } := by
  have hrec : forall u : Thread,
      ({ u with
         followupsSent := u.followupsSent + 1,
         lastFollowupSentAt := some sent_at } : Thread).messageId = u.messageId :=
    fun _ => rfl
  unfold send_followup at hs ⊢
  have hb1 : ¬ (t.failedSends ≥ max_failed_sends) := by
    intro hge
    rw [if_pos hge] at hs
    simp at hs
  rw [if_neg hb1] at hs ⊢
  have hb2 : pw_ok = true := by
    cases hpw : pw_ok
    · rw [hpw] at hs; simp at hs
    · rfl
  subst hb2
  simp only [Bool.not_true, Bool.false_eq_true, if_false] at hs ⊢
  cases htm : get_template stage with
  | none => rw [htm] at hs; simp at hs
  | some tmpl =>
    rw [htm] at hs
    dsimp only at hs ⊢
    have hb3 : (send_with_retry att).1 = true := by
      by_cases hr : (send_with_retry att).1 = true
      · exact hr
      · exfalso
        rw [if_neg hr] at hs
        rcases hx : (increment_failed_sends db t.messageId).1 with _ | n <;>
          rw [hx] at hs <;> dsimp only at hs
        · exact absurd hs (by simp)
        · split_ifs at hs
    rw [if_pos hb3] at hs ⊢
    unfold record_followup_sent_asyncpg
    rw [hget]
    dsimp only
    rw [get_thread_history, get_thread_set db t.messageId _ hrec, hget]
    rfl

/-- C5 amended: after a successful stage-N send the scheduler updates the
ScheduleIndex only — stage 1 adds stage 2 at now + 24 h, stage 2 adds stage
3 at now + 48 h, stage 3 adds nothing — and in the ThreadStore only
currentStage is set; schedule_next_followup is not invoked, so
nextFollowupAt is left unchanged (not cleared at stage 3). -/
theorem process_followup_schedules_redis_only :
    ∀ (pw_ok : Bool) (att : Nat → SmtpAttempt) (now : Nat) (redis : RedisState)
      (db : DbState) (message_id : String) (stage : Nat) (t : Thread),
      get_thread db message_id = some t →
      (process_followup pw_ok att now redis db message_id stage).1 = true →
      ((stage = 1 →
          (member_key message_id 2, now + 24 * 3600) ∈
            (process_followup pw_ok att now redis db message_id stage).2.1.zset) ∧
       (stage = 2 →
          (member_key message_id 3, now + 48 * 3600) ∈
            (process_followup pw_ok att now redis db message_id stage).2.1.zset) ∧
       (stage = 3 →
          (process_followup pw_ok att now redis db message_id stage).2.1.zset = redis.zset) ∧
       (∃ t2, get_thread (process_followup pw_ok att now redis db message_id stage).2.2
            message_id = some t2 ∧
          t2.currentStage = stage ∧ t2.nextFollowupAt = t.nextFollowupAt)) := by
  intro pw_ok att now redis db message_id stage t hget hsucc
  rcases hg : should_send_followup redis db message_id stage with ⟨b, topt⟩
  unfold process_followup at hsucc ⊢
  rw [hg] at hsucc ⊢
  cases topt with
  | none => cases b <;> simp at hsucc
  | some td =>
    cases b with
    | false => simp at hsucc
    | true =>
      have htd : td = t := by
        have h2 : get_thread db message_id = some td :=
          should_send_some redis db message_id stage td (by rw [hg])
        rw [hget] at h2
        exact (Option.some.inj h2).symm
      have hkey : td.messageId = message_id := by
        rw [htd]
        exact get_thread_key db message_id t hget
      dsimp only at hsucc ⊢
      by_cases hr : (send_followup pw_ok att db td stage now).1 = true
      case neg =>
        rw [if_neg hr] at hsucc
        simp at hsucc
      case pos =>
        rw [if_pos hr] at hsucc ⊢
        have hgett : get_thread db td.messageId = some td := by
          rw [hkey, htd]
          exact hget
        have hsent0 := send_followup_success_next pw_ok att db td stage now hgett hr
        have hsent : get_thread (send_followup pw_ok att db td stage now).2 message_id
            = some { td with
                     followupsSent := td.followupsSent + 1,
                     lastFollowupSentAt := some now } := by
          rw [← hkey]
          exact hsent0
        have hupd2 : forall u : Thread,
            (apply_update u { current_stage := some stage }).messageId = u.messageId :=
          fun _ => rfl
        have hdbfinal :
            get_thread ((update_thread (send_followup pw_ok att db td stage now).2
              message_id { current_stage := some stage }).2) message_id
            = some (apply_update { td with
                      followupsSent := td.followupsSent + 1,
                      lastFollowupSentAt := some now } { current_stage := some stage }) := by
          unfold update_thread
          rw [if_neg (by simp [no_fields])]
          rw [if_pos (by rw [hsent]; exact rfl)]
          rw [get_thread_set _ message_id _ hupd2, hsent]
          rfl
        have hnext : (apply_update { td with
                        followupsSent := td.followupsSent + 1,
                        lastFollowupSentAt := some now }
                      { current_stage := some stage }).nextFollowupAt
            = t.nextFollowupAt := by
          rw [← htd]
          rfl
        refine ⟨?_, ?_, ?_, ?_⟩
        · intro h1
          subst h1
          simp [schedule_followup, zadd, member_key, STAGE_2_DELAY_HOURS]
        · intro h2
          subst h2
          simp [schedule_followup, zadd, member_key, STAGE_2_DELAY_HOURS]
        · intro h3
          subst h3
          simp
        · by_cases h1 : stage = 1
          · subst h1
            simp only [if_pos rfl]
            exact ⟨_, hdbfinal, rfl, hnext⟩
          · by_cases h2 : stage = 2
            · subst h2
              rw [if_neg h1, if_pos rfl]
              exact ⟨_, hdbfinal, rfl, hnext⟩
            · rw [if_neg h1, if_neg h2]
              exact ⟨_, hdbfinal, rfl, hnext⟩

def wAttOk : Nat → SmtpAttempt := fun _ => SmtpAttempt.ok

def wSched1Thread : Thread :=
  { messageId := "m1", threadId := "t1", accountEmail := "a@x.com",
    creatorEmail := "c@y.com", subject := "s", status := Status.FOLLOWUP_ACTIVE,
    currentStage := 1, followupsSent := 0, failedSends := 0, nextFollowupAt := some 500 }

def wSched1Db : DbState := { threads := [wSched1Thread] }

def wSched3Thread : Thread :=
  { messageId := "m1", threadId := "t1", accountEmail := "a@x.com",
    creatorEmail := "c@y.com", subject := "s", status := Status.FOLLOWUP_ACTIVE,
    currentStage := 2, followupsSent := 2, failedSends := 0, nextFollowupAt := some 999 }

def wSched3Db : DbState := { threads := [wSched3Thread] }

/-- C5 witness: the amended theorem applied to a concrete successful stage-1
dispatch. -/
theorem process_followup_schedules_redis_only_witness :
    ((1 = 1 →
        (member_key "m1" 2, 10000 + 24 * 3600) ∈
          (process_followup true wAttOk 10000 {} wSched1Db "m1" 1).2.1.zset) ∧
     (1 = 2 →
        (member_key "m1" 3, 10000 + 48 * 3600) ∈
          (process_followup true wAttOk 10000 {} wSched1Db "m1" 1).2.1.zset) ∧
     (1 = 3 →
        (process_followup true wAttOk 10000 {} wSched1Db "m1" 1).2.1.zset =
          RedisState.zset {}) ∧
     (∃ t2, get_thread (process_followup true wAttOk 10000 {} wSched1Db "m1" 1).2.2
          "m1" = some t2 ∧
        t2.currentStage = 1 ∧ t2.nextFollowupAt = wSched1Thread.nextFollowupAt)) :=
  process_followup_schedules_redis_only true wAttOk 10000 {} wSched1Db "m1" 1 wSched1Thread
    (by decide) (by decide)

/-- C5 counterexample: a successful stage-1 dispatch leaves nextFollowupAt
at its old value rather than now + 24 h (schedule_next_followup is never
called), and a successful stage-3 dispatch does not clear it. -/
theorem process_followup_no_threadstore_schedule_cex :
    ((process_followup true wAttOk 10000 {} wSched1Db "m1" 1).1 = true) ∧
    ((get_thread (process_followup true wAttOk 10000 {} wSched1Db "m1" 1).2.2 "m1").map
        (fun t => t.nextFollowupAt) = some (some 500)) ∧
    (some (some 500) ≠ some (some (10000 + 24 * 3600) : Option Nat)) ∧
    ((process_followup true wAttOk 10000 {} wSched3Db "m1" 3).1 = true) ∧
    ((get_thread (process_followup true wAttOk 10000 {} wSched3Db "m1" 3).2.2 "m1").map
        (fun t => t.nextFollowupAt) = some (some 999)) ∧
    ((get_thread (process_followup true wAttOk 10000 {} wSched3Db "m1" 3).2.2 "m1").map
        (fun t => t.nextFollowupAt) ≠ some (none : Option Nat)) := by
  decide

def wAnalyzerInterested : String → Analysis := fun _ => { intent := "INTERESTED" }

def wTrivialEmail : EmailData :=
  { message_id := "m1", thread_id := "t1", account_email := "a@x.com",
    from_email := "c@y.com", subject := "Collab", body := "hello" }

/-- C1: the pipeline never consults the Debouncer.  For the reply with body
"hello" — which should_process rejects as trivial for every store state —
process_email still analyzes it, inserts a thread, applies the routing
update, records a stage-1 send and changes the mailbox flag. -/
theorem pipeline_skips_debouncer :
    (should_process {} "t1" "hello").1 = false ∧
    is_trivial "hello" = true ∧
    (process_email wAnalyzerInterested true wAttOk 1000 wTrivialEmail {}).2.db.threads ≠ [] ∧
    ((get_thread (process_email wAnalyzerInterested true wAttOk 1000 wTrivialEmail {}).2.db
        "m1").map (fun t => t.status) = some Status.FOLLOWUP_ACTIVE) ∧
    (process_email wAnalyzerInterested true wAttOk 1000
        wTrivialEmail {}).2.db.followup_history ≠ [] ∧
    (process_email wAnalyzerInterested true wAttOk 1000 wTrivialEmail {}).2.mail.seen
      = [("m1", true)] := by
  decide

def wInterestedEmail : EmailData :=
  { message_id := "m1", thread_id := "t1", account_email := "a@x.com",
    from_email := "c@y.com", subject := "Collab",
    body := "Interested in the campaign details" }

/-- C8: processing the same reply twice is not idempotent.  The first run
leaves the thread FOLLOWUP_ACTIVE; the second run routes through the
existing-thread branch and flips it to DELEGATED, so the final thread state
differs from the single-run state. -/
theorem pipeline_not_idempotent :
    ((get_thread (process_email wAnalyzerInterested true wAttOk 1000 wInterestedEmail
        {}).2.db "m1").map (fun t => t.status) = some Status.FOLLOWUP_ACTIVE) ∧
    ((get_thread (process_email wAnalyzerInterested true wAttOk 1000 wInterestedEmail
        (process_email wAnalyzerInterested true wAttOk 1000 wInterestedEmail {}).2).2.db
        "m1").map (fun t => t.status) = some Status.DELEGATED) ∧
    (get_thread (process_email wAnalyzerInterested true wAttOk 1000 wInterestedEmail
        (process_email wAnalyzerInterested true wAttOk 1000 wInterestedEmail {}).2).2.db "m1"
      ≠ get_thread (process_email wAnalyzerInterested true wAttOk 1000 wInterestedEmail
        {}).2.db "m1") := by
  decide

def wRecThread : Thread :=
  { messageId := "m1", threadId := "t1", accountEmail := "a@x.com",
    creatorEmail := "c@y.com", subject := "s", status := Status.FOLLOWUP_ACTIVE,
    currentStage := 1, followupsSent := 1 }

def wRecDb : DbState := { threads := [wRecThread] }

/-- C3: record_followup_sent runs its queries without a transaction.  With a
database error at the FollowupSend insert (after the thread update already
committed), the function returns false yet the incremented followupsSent and
the new currentStage persist while no FollowupSend and no StageTransition
row exists — a partial subset of the effects.  The fault-free run performs
all of them. -/
theorem record_followup_sent_partial_persist :
    (record_followup_sent (some 2) wRecDb "m1" 2 1000 "tpl").1 = false ∧
    ((get_thread (record_followup_sent (some 2) wRecDb "m1" 2 1000 "tpl").2 "m1").map
        (fun t => t.followupsSent) = some 2) ∧
    ((get_thread (record_followup_sent (some 2) wRecDb "m1" 2 1000 "tpl").2 "m1").map
        (fun t => t.currentStage) = some 2) ∧
    (record_followup_sent (some 2) wRecDb "m1" 2 1000 "tpl").2.followup_sends = [] ∧
    (record_followup_sent (some 2) wRecDb "m1" 2 1000 "tpl").2.stage_transitions = [] ∧
    (record_followup_sent (some 2) wRecDb "m1" 2 1000 "tpl").2 ≠ wRecDb ∧
    (record_followup_sent none wRecDb "m1" 2 1000 "tpl").1 = true ∧
    (record_followup_sent none wRecDb "m1" 2 1000 "tpl").2.followup_sends ≠ [] ∧
    (record_followup_sent none wRecDb "m1" 2 1000 "tpl").2.stage_transitions ≠ [] := by
  decide

end Mosaic
